import Mathlib

/-!
Shallow embedding of the Annual Report Analyst pipeline:
`rag_engine.py` (section classifier, chunk parameters, document-to-index
pipeline) and `app.py` (session state: upload, reset, chat loop).
Third-party library calls (PyMuPDF loading, RecursiveCharacterTextSplitter,
embeddings, Chroma, LLM backend) are modelled at their interface as stated
in spec.md; everything written in the repository itself is translated
directly from the source.
-/

namespace RagSpec

/-- Boolean test that the first list is a prefix of the second
(embeds Python substring search, prefix part). -/
def listHasPrefix : List Char → List Char → Bool
  | [], _ => true
  | _ :: _, [] => false
  | a :: as, b :: bs => a == b && listHasPrefix as bs

/-- Boolean test that `sub` occurs contiguously inside the second list. -/
def listHasInfix (sub : List Char) : List Char → Bool
  | [] => listHasPrefix sub []
  | c :: ts => listHasPrefix sub (c :: ts) || listHasInfix sub ts

/-- Embeds the Python expression `sub in t` on strings: substring test. -/
def containsSub (t sub : String) : Bool := listHasInfix sub.data t.data

/-- Embeds Python `str.lower()` (per-character lowercasing). -/
def lowerString (s : String) : String := String.mk (s.data.map Char.toLower)

/-- From `rag_engine.py` lines 30-50: `classify_section`.
Case-insensitive keyword rules tried in a fixed order, first match wins. -/
def classify_section (text : String) : String :=
  let t := lowerString text
  if containsSub t "management discussion" || containsSub t "md&a" then "mdna"
  else if containsSub t "risk" then "risk"
  else if containsSub t "financial statement" || containsSub t "balance sheet" then "financials"
  else if containsSub t "notes to" then "notes"
  else if containsSub t "notice" || containsSub t "e-voting" || containsSub t "agm" then "legal"
  else "other"

/-- From `rag_engine.py` lines 67-74: `get_chunk_params`:
chunk size and overlap chosen from the section label alone. -/
def get_chunk_params (sec : String) : Nat × Nat :=
  if sec = "financials" ∨ sec = "notes" then (1800, 300) else (1200, 150)

/-- Modelled from the spec: `RecursiveCharacterTextSplitter` is third-party
library code not present in this repository; spec.md sections 3 and 4.3
describe its contract as a sliding window of `size` characters advancing by
`size - overlap`, so consecutive windows share `overlap` characters and the
final window may be shorter. Structural recursion over an explicit fuel
argument (the fuel is always sufficient when called through `split_text`). -/
def split_text_fuel : Nat → Nat → Nat → List Char → List (List Char)
  | 0, _, _, s => [s]
  | fuel + 1, size, overlap, s =>
    if s.length ≤ size ∨ size ≤ overlap then [s]
    else s.take size :: split_text_fuel fuel size overlap (s.drop (size - overlap))

/-- Modelled from the spec: the sliding-window chunker applied to a text,
see `split_text_fuel`. -/
def split_text (size overlap : Nat) (s : List Char) : List (List Char) :=
  split_text_fuel s.length size overlap s

/-- Concatenation of a chunk list with the first `overlap` characters of
every chunk removed. -/
def drop_join (overlap : Nat) : List (List Char) → List Char
  | [] => []
  | c :: cs => c.drop overlap ++ drop_join overlap cs

/-- Concatenation of a chunk list minus the configured overlaps: the first
chunk in full, every later chunk with its leading `overlap` characters
removed (spec.md section 8, coverage property). -/
def join_minus_overlap (overlap : Nat) : List (List Char) → List Char
  | [] => []
  | c :: cs => c ++ drop_join overlap cs

/-- Boolean check that every pair of consecutive chunks overlaps by exactly
`overlap` characters: the earlier chunk has full length `size`, the later
chunk has more than `overlap` characters, and the last `overlap` characters
of the earlier chunk equal the first `overlap` characters of the later one. -/
def chunks_overlap_ok (size overlap : Nat) : List (List Char) → Bool
  | a :: b :: rest =>
    a.length == size && decide (overlap < b.length)
      && a.drop (size - overlap) == b.take overlap
      && chunks_overlap_ok size overlap (b :: rest)
  | _ => true

/-- A unit produced by the PDF loader: one page of extracted text
(spec.md section 3, Page/Unit; `doc.page_content` and `doc.metadata` page
number in the source). -/
structure RawDoc where
  page_content : String
  page : Nat
deriving DecidableEq, Repr

/-- A unit that survived filtering, carrying its section label
(`doc.metadata` gains key `section` in `rag_engine.py` line 65). -/
structure ClassifiedDoc where
  page_content : String
  page : Nat
  section_label : String
deriving DecidableEq, Repr

/-- One chunk as stored in the vector index: text plus inherited metadata.
Embedding vectors are computed by a third-party model and carry no logical
content here; the index is modelled as the list of its chunks. -/
structure Chunk where
  text : String
  page : Nat
  section_label : String
deriving DecidableEq, Repr

/-- A PDF file as seen through the third-party loader interface: either it
parses into a list of page units or loading raises (missing, corrupt or
unparsable file), modelled by `none`. -/
structure Pdf where
  parsed : Option (List RawDoc)
deriving DecidableEq

/-- From `rag_engine.py` lines 59-66: classify every loaded unit and drop
the ones classified `legal`; the others keep their section label. -/
def filter_classify (docs : List RawDoc) : List ClassifiedDoc :=
  docs.filterMap fun d =>
    let sec := classify_section d.page_content
    if sec = "legal" then none
    else some ⟨d.page_content, d.page, sec⟩

/-- From `rag_engine.py` lines 76-84: split one classified unit with the
chunk size and overlap chosen from its section label; chunks inherit the
unit metadata, as `split_documents` does in the library. -/
def split_doc (d : ClassifiedDoc) : List Chunk :=
  let p := get_chunk_params d.section_label
  (split_text p.1 p.2 d.page_content.data).map fun l => ⟨String.mk l, d.page, d.section_label⟩

/-- From `rag_engine.py` lines 20-94: `process_document_to_chroma`.
Load the PDF (an exception from the loader is re-raised as an ingestion
error, lines 54-57, and no store is built), classify and filter the units,
split each with section-dependent parameters, and build the vector store
from all resulting chunks. -/
def process_document_to_chroma (p : Pdf) : Except String (List Chunk) :=
  match p.parsed with
  | none => .error "Failed to parse PDF"
  | some docs => .ok ((filter_classify docs).flatMap split_doc)

/-- From `rag_engine.py` lines 96-108: `format_docs`. -/
def format_docs (docs : List Chunk) : String :=
  String.intercalate "\n\n---\n\n"
    (docs.map fun d => "[Page " ++ toString d.page ++ "]\n" ++ d.text)

/-- A chat turn (`HumanMessage` or `AIMessage` in `app.py`). -/
inductive ChatMsg where
  | human (content : String)
  | ai (content : String)
deriving DecidableEq, Repr

/-- The Streamlit session state used by `app.py`: the optional vector
store, the chat history, and the session id that keys the upload widget. -/
structure AppState where
  vectorstore : Option (List Chunk)
  chat_history : List ChatMsg
  session_id : Nat
deriving DecidableEq, Repr

/-- Session state right after startup (`app.py` lines 13-14 and 60-61). -/
def initial_state : AppState := ⟨none, [], 0⟩

/-- From `app.py` lines 77-86: the upload handler runs only when a file is
supplied AND no vector store is in the session state; on success the built
store is assigned, and when processing raises the assignment never happens
and the session state is unchanged. -/
def upload_step (p : Pdf) (s : AppState) : AppState :=
  if s.vectorstore.isSome then s
  else
    match process_document_to_chroma p with
    | .error _ => s
    | .ok idx => { s with vectorstore := some idx }

/-- From `app.py` lines 16-50: `reset_application`. Step 1 deletes the
collection (exceptions caught) and removes the vector store from the
session; step 2 best-effort removes the on-disk folder (exceptions caught,
no logical state involved); step 3 clears the chat history; step 4
increments the session id to invalidate the upload widget. Total function:
every physical failure is caught in the source, so the logical reset
always completes. -/
def reset_application (s : AppState) : AppState :=
  { vectorstore := none, chat_history := [], session_id := s.session_id + 1 }

/-- The fixed message shown when a question arrives before any upload
(`app.py` line 138). -/
def upload_first_msg : String := "Please upload a document first to start the analysis."

/-- A backend operation invoked during a chat turn: the history-aware
retrieval call or the answer-generation call (both reach the LLM service). -/
inductive BackendCall where
  | retrieval
  | generation
deriving DecidableEq, Repr

/-- The third-party retrieval and generation chains of `get_rag_chain`,
modelled as opaque-to-us functions supplied as parameters: retrieval maps
the index, the history and the question to retrieved chunks; generation
maps formatted context, history and question to the streamed answer text. -/
structure Backend where
  retrieve : List Chunk → List ChatMsg → String → List Chunk
  generate : String → List ChatMsg → String → String

/-- What one iteration of the chat loop produced: the new session state,
any error message displayed, the backend calls that were made, and the
answer when one was generated. -/
structure AskOutcome where
  state : AppState
  displayed_error : Option String
  backend_calls : List BackendCall
  answer : Option String
deriving Repr

/-- From `app.py` lines 98-138: the main chat loop body for one submitted
question. The user turn is appended to the history first (line 103); only
then is the vector store checked. With a store present, retrieval and then
generation run and the answer is appended as an AI turn; without one, the
fixed upload-first error is shown and no backend call is made. -/
def chat_step (b : Backend) (q : String) (s : AppState) : AskOutcome :=
  let s1 : AppState := { s with chat_history := s.chat_history ++ [ChatMsg.human q] }
  match s1.vectorstore with
  | some idx =>
    let docs := b.retrieve idx s1.chat_history q
    let ans := b.generate (format_docs docs) s1.chat_history q
    { state := { s1 with chat_history := s1.chat_history ++ [ChatMsg.ai ans] }
      displayed_error := none
      backend_calls := [BackendCall.retrieval, BackendCall.generation]
      answer := some ans }
  | none =>
    { state := s1
      displayed_error := some upload_first_msg
      backend_calls := []
      answer := none }

/-- Python truthiness of `os.getenv("GROQ_API_KEY")`: a missing variable or
an empty string are both falsy. -/
def groq_key_ok (key : Option String) : Bool :=
  match key with
  | none => false
  | some s => !(s = "")

/-- From `rag_engine.py` lines 17-18: module import raises when the key is
absent, so importing the engine fails before any pipeline function exists. -/
def rag_engine_init (key : Option String) : Except String Unit :=
  if groq_key_ok key then .ok ()
  else .error "GROQ_API_KEY not found. Please check your .env file."

/-- Application startup: `app.py` imports `rag_engine` at line 8 before any
UI or session state is created, so the whole process fails to start when
the engine module raises; on success the initial session state exists. -/
def app_startup (key : Option String) : Except String AppState :=
  match rag_engine_init key with
  | .error e => .error e
  | .ok _ => .ok initial_state

/-- The sliding-window chunker never returns an empty chunk list. -/
theorem split_text_fuel_ne_nil (fuel size overlap : Nat) (s : List Char) :
    split_text_fuel fuel size overlap s ≠ [] := by
  cases fuel with
  | zero => simp [split_text_fuel]
  | succ n =>
    simp only [split_text_fuel]
    split <;> simp

/-- With sufficient fuel and a positive step, the first chunk is the first
`size` characters of the text. -/
theorem split_text_fuel_head (fuel size overlap : Nat) (s : List Char)
    (hov : overlap < size) (hf : s.length ≤ fuel * (size - overlap) + size) :
    (split_text_fuel fuel size overlap s).headD [] = s.take size := by
  cases fuel with
  | zero =>
    have hle : s.length ≤ size := by simpa using hf
    simp [split_text_fuel, List.take_of_length_le hle]
  | succ n =>
    simp only [split_text_fuel]
    split
    · rename_i h
      rcases h with h | h
      · simp [List.take_of_length_le h]
      · omega
    · simp

/-- Dropping the leading `overlap` characters of every chunk and
concatenating yields the text with its own first `overlap` characters
removed. -/
theorem drop_join_split (size overlap : Nat) (hov : overlap < size) :
    ∀ (fuel : Nat) (s : List Char), s.length ≤ fuel * (size - overlap) + size →
    drop_join overlap (split_text_fuel fuel size overlap s) = s.drop overlap := by
  intro fuel
  induction fuel with
  | zero =>
    intro s hf
    simp [split_text_fuel, drop_join]
  | succ n ih =>
    intro s hf
    rw [Nat.succ_mul] at hf
    simp only [split_text_fuel]
    split
    · simp [drop_join]
    · rename_i h
      push_neg at h
      obtain ⟨h1, h2⟩ := h
      have hf' : (s.drop (size - overlap)).length ≤ n * (size - overlap) + size := by
        rw [List.length_drop]
        generalize n * (size - overlap) = M at hf ⊢
        omega
      simp only [drop_join]
      rw [ih _ hf', List.drop_take, List.drop_drop]
      have e1 : size - overlap + overlap = size := by omega
      have e2 : s.drop size = (s.drop overlap).drop (size - overlap) := by
        rw [List.drop_drop]
        congr 1
        omega
      rw [e1, e2, List.take_append_drop]

/-- Coverage of the sliding-window chunker: the first chunk followed by
every later chunk minus its leading overlap reconstructs the text. -/
theorem join_minus_overlap_split (fuel size overlap : Nat) (s : List Char)
    (hov : overlap < size) (hf : s.length ≤ fuel * (size - overlap) + size) :
    join_minus_overlap overlap (split_text_fuel fuel size overlap s) = s := by
  cases fuel with
  | zero => simp [split_text_fuel, join_minus_overlap, drop_join]
  | succ n =>
    rw [Nat.succ_mul] at hf
    simp only [split_text_fuel]
    split
    · simp [join_minus_overlap, drop_join]
    · rename_i h
      push_neg at h
      obtain ⟨h1, h2⟩ := h
      have hf' : (s.drop (size - overlap)).length ≤ n * (size - overlap) + size := by
        rw [List.length_drop]
        generalize n * (size - overlap) = M at hf ⊢
        omega
      simp only [join_minus_overlap]
      rw [drop_join_split size overlap hov n _ hf', List.drop_drop]
      have e1 : size - overlap + overlap = size := by omega
      rw [e1, List.take_append_drop]

/-- Exact-overlap property of the sliding-window chunker, fuel version. -/
theorem chunks_overlap_split (size overlap : Nat) (hov : overlap < size) :
    ∀ (fuel : Nat) (s : List Char), s.length ≤ fuel * (size - overlap) + size →
    chunks_overlap_ok size overlap (split_text_fuel fuel size overlap s) = true := by
  intro fuel
  induction fuel with
  | zero =>
    intro s hf
    simp [split_text_fuel, chunks_overlap_ok]
  | succ n ih =>
    intro s hf
    rw [Nat.succ_mul] at hf
    simp only [split_text_fuel]
    split
    · simp [chunks_overlap_ok]
    · rename_i h
      push_neg at h
      obtain ⟨h1, h2⟩ := h
      have hf' : (s.drop (size - overlap)).length ≤ n * (size - overlap) + size := by
        rw [List.length_drop]
        generalize n * (size - overlap) = M at hf ⊢
        omega
      obtain ⟨b, rest, hbr⟩ :=
        List.exists_cons_of_ne_nil (split_text_fuel_ne_nil n size overlap (s.drop (size - overlap)))
      have hb : b = (s.drop (size - overlap)).take size := by
        have hh := split_text_fuel_head n size overlap (s.drop (size - overlap)) hov hf'
        rw [hbr] at hh
        simpa using hh
      rw [hbr]
      simp only [chunks_overlap_ok, Bool.and_eq_true, beq_iff_eq, decide_eq_true_eq]
      refine ⟨⟨⟨?_, ?_⟩, ?_⟩, ?_⟩
      · rw [List.length_take]
        omega
      · rw [hb, List.length_take, List.length_drop]
        omega
      · rw [hb, List.drop_take, List.take_take]
        congr 1
        omega
      · rw [← hbr]
        exact ih _ hf'

/-- The default fuel `s.length` is always sufficient. -/
theorem split_text_fuel_enough (size overlap : Nat) (hov : overlap < size) (s : List Char) :
    s.length ≤ s.length * (size - overlap) + size :=
  le_trans (Nat.le_mul_of_pos_right s.length (by omega)) (Nat.le_add_right _ _)

/-- Coverage for `split_text`. -/
theorem split_text_coverage (size overlap : Nat) (hov : overlap < size) (s : List Char) :
    join_minus_overlap overlap (split_text size overlap s) = s :=
  join_minus_overlap_split s.length size overlap s hov (split_text_fuel_enough size overlap hov s)

/-- Exact overlap for `split_text`. -/
theorem split_text_overlap (size overlap : Nat) (hov : overlap < size) (s : List Char) :
    chunks_overlap_ok size overlap (split_text size overlap s) = true :=
  chunks_overlap_split size overlap hov s.length s (split_text_fuel_enough size overlap hov s)

/-- For every section label the configured overlap is smaller than the
configured chunk size. -/
theorem get_chunk_params_overlap_lt (sec : String) :
    (get_chunk_params sec).2 < (get_chunk_params sec).1 := by
  unfold get_chunk_params
  split <;> norm_num

/-- Concrete one-page PDF whose page classifies as `risk`. -/
def pdfA : Pdf := ⟨some [⟨"Company risk factors overview", 1⟩]⟩

/-- Concrete one-page PDF whose page classifies as `financials`. -/
def pdfB : Pdf := ⟨some [⟨"Consolidated balance sheet data", 1⟩]⟩

/-- Concrete PDF whose loading fails (missing, corrupt or unparsable). -/
def pdf_corrupt : Pdf := ⟨none⟩

/-- Concrete two-page PDF: an AGM notice page (classified `legal`) and a
risk page. -/
def pdfLegal : Pdf :=
  ⟨some [⟨"AGM Notice: e-voting opens March 1", 1⟩, ⟨"Key risk factors", 2⟩]⟩

/-- A concrete backend used to instantiate universally quantified theorems. -/
def dummy_backend : Backend := ⟨fun _ _ _ => [], fun _ _ _ => ""⟩

/-- Keyword rule for `mdna` as worded in spec.md section 4.2. -/
def kw_mdna (t : String) : Bool :=
  containsSub t "management discussion" || containsSub t "md&a"

/-- Keyword rule for `risk` as worded in spec.md section 4.2. -/
def kw_risk (t : String) : Bool := containsSub t "risk"

/-- Keyword rule for `financials` as worded in spec.md section 4.2. -/
def kw_financials (t : String) : Bool :=
  containsSub t "financial statement" || containsSub t "balance sheet"

/-- Keyword rule for `notes` as worded in spec.md section 4.2. -/
def kw_notes (t : String) : Bool := containsSub t "notes to"

/-- Keyword rule for `legal` as worded in spec.md section 4.2. -/
def kw_legal (t : String) : Bool :=
  containsSub t "notice" || containsSub t "e-voting" || containsSub t "agm"

/-- C2: the classifier returns exactly one label, decided by the
case-insensitive substring rules in the fixed priority order mdna, risk,
financials, notes, legal, other, first match winning; the returned label is
always one of the six; and a text containing both "risk" and
"balance sheet" classifies as `risk`. -/
theorem classify_section_priority_order :
    (∀ t : String,
      classify_section t =
        if kw_mdna (lowerString t) then "mdna"
        else if kw_risk (lowerString t) then "risk"
        else if kw_financials (lowerString t) then "financials"
        else if kw_notes (lowerString t) then "notes"
        else if kw_legal (lowerString t) then "legal"
        else "other")
    ∧ (∀ t : String,
        classify_section t = "mdna" ∨ classify_section t = "risk" ∨
        classify_section t = "financials" ∨ classify_section t = "notes" ∨
        classify_section t = "legal" ∨ classify_section t = "other")
    ∧ classify_section "The company faces risk and presents a balance sheet." = "risk" := by
  refine ⟨fun t => rfl, fun t => ?_, by decide⟩
  simp only [classify_section]
  split
  · tauto
  split
  · tauto
  split
  · tauto
  split
  · tauto
  split
  · tauto
  tauto

/-- C6: chunk size and overlap are determined solely by the section label:
`financials` and `notes` map to (1800, 300), every other label maps to
(1200, 150), and the pipeline splits each classified unit with exactly the
parameters of its own section label. -/
theorem chunk_params_by_section :
    get_chunk_params "financials" = (1800, 300)
    ∧ get_chunk_params "notes" = (1800, 300)
    ∧ (∀ sec : String, sec ≠ "financials" → sec ≠ "notes" →
        get_chunk_params sec = (1200, 150))
    ∧ (∀ d : ClassifiedDoc,
        split_doc d = (split_text (get_chunk_params d.section_label).1
          (get_chunk_params d.section_label).2 d.page_content.data).map
          fun l => ⟨String.mk l, d.page, d.section_label⟩) := by
  refine ⟨by decide, by decide, fun sec h1 h2 => ?_, fun d => rfl⟩
  unfold get_chunk_params
  rw [if_neg]
  tauto

/-- Witness for C6 at the concrete label `risk`. -/
theorem chunk_params_by_section_witness :
    get_chunk_params "risk" = (1200, 150) :=
  chunk_params_by_section.2.2.1 "risk" (by decide) (by decide)

/-- C3: the chunker output for every classified unit is the ordered window
sequence with the parameters of the unit's section; consecutive chunks
overlap by exactly the configured overlap (earlier chunk full-size, shared
characters equal), and concatenating the chunks minus the overlaps
reconstructs the unit text with no gaps. -/
theorem chunker_overlap_and_coverage (d : ClassifiedDoc) :
    (split_doc d).map (fun c => c.text.data)
      = split_text (get_chunk_params d.section_label).1
          (get_chunk_params d.section_label).2 d.page_content.data
    ∧ chunks_overlap_ok (get_chunk_params d.section_label).1
        (get_chunk_params d.section_label).2
        ((split_doc d).map fun c => c.text.data) = true
    ∧ join_minus_overlap (get_chunk_params d.section_label).2
        ((split_doc d).map fun c => c.text.data) = d.page_content.data := by
  have hmap : (split_doc d).map (fun c => c.text.data)
      = split_text (get_chunk_params d.section_label).1
          (get_chunk_params d.section_label).2 d.page_content.data := by
    unfold split_doc
    rw [List.map_map]
    exact List.map_id _
  refine ⟨hmap, ?_, ?_⟩
  · rw [hmap]
    exact split_text_overlap _ _ (get_chunk_params_overlap_lt _) _
  · rw [hmap]
    exact split_text_coverage _ _ (get_chunk_params_overlap_lt _) _

/-- C1: when processing succeeds, every chunk of the built index carries a
non-legal section label and originates from a loaded unit whose
classification is not `legal`; units classified `legal` were dropped before
chunking, and no chunk of theirs reaches the index. -/
theorem legal_never_indexed (p : Pdf) (ds : List RawDoc) (idx : List Chunk)
    (hp : p.parsed = some ds) (hok : process_document_to_chroma p = .ok idx) :
    ∀ c ∈ idx, c.section_label ≠ "legal" ∧
      ∃ d ∈ ds, classify_section d.page_content ≠ "legal" ∧
        c.section_label = classify_section d.page_content ∧ c.page = d.page := by
  unfold process_document_to_chroma at hok
  rw [hp] at hok
  injection hok with hok
  subst hok
  intro c hc
  rw [List.mem_flatMap] at hc
  obtain ⟨cd, hcd, hcchunk⟩ := hc
  simp only [filter_classify, List.mem_filterMap] at hcd
  obtain ⟨d, hd, hsome⟩ := hcd
  by_cases hleg : classify_section d.page_content = "legal"
  · rw [if_pos hleg] at hsome
    exact absurd hsome (by simp)
  · rw [if_neg hleg] at hsome
    injection hsome with hsome
    subst hsome
    simp only [split_doc, List.mem_map] at hcchunk
    obtain ⟨l, hl, hc⟩ := hcchunk
    subst hc
    exact ⟨hleg, d, hd, hleg, rfl, rfl⟩

/-- Witness for C1: the two-page PDF with an AGM notice page and a risk
page indexes exactly one chunk, and the theorem applies to it. -/
theorem legal_never_indexed_witness :
    (⟨"Key risk factors", 2, "risk"⟩ : Chunk).section_label ≠ "legal" ∧
      ∃ d ∈ [(⟨"AGM Notice: e-voting opens March 1", 1⟩ : RawDoc),
             (⟨"Key risk factors", 2⟩ : RawDoc)],
        classify_section d.page_content ≠ "legal" ∧
        (⟨"Key risk factors", 2, "risk"⟩ : Chunk).section_label
          = classify_section d.page_content ∧
        (⟨"Key risk factors", 2, "risk"⟩ : Chunk).page = d.page :=
  legal_never_indexed pdfLegal
    [⟨"AGM Notice: e-voting opens March 1", 1⟩, ⟨"Key risk factors", 2⟩]
    [⟨"Key risk factors", 2, "risk"⟩] rfl rfl
    ⟨"Key risk factors", 2, "risk"⟩ (by decide)

/-- C4 counterexample: with the index built from `pdfA` live, uploading
`pdfB` leaves the session state unchanged: the old index survives and the
index that `pdfB` builds is not installed, refuting the claim that a new
upload destroys and replaces a live index. -/
theorem upload_while_live_ignored_cex :
    upload_step pdfB (upload_step pdfA initial_state) = upload_step pdfA initial_state
    ∧ (upload_step pdfB (upload_step pdfA initial_state)).vectorstore
        = some [⟨"Company risk factors overview", 1, "risk"⟩]
    ∧ process_document_to_chroma pdfB
        = .ok [⟨"Consolidated balance sheet data", 1, "financials"⟩]
    ∧ (upload_step pdfB (upload_step pdfA initial_state)).vectorstore
        ≠ some [⟨"Consolidated balance sheet data", 1, "financials"⟩] :=
  ⟨by decide, by decide, rfl, by decide⟩

/-- C4 amended: the index is created on upload when no index is live,
destroyed wholesale on reset, and at most one index is live per session;
uploading while an index is live leaves the existing index in place (the
upload handler does not run), so replacement requires a reset first. -/
theorem index_lifecycle_amended (p : Pdf) (s : AppState) :
    (s.vectorstore = none →
      (upload_step p s).vectorstore = (process_document_to_chroma p).toOption)
    ∧ (s.vectorstore.isSome = true → upload_step p s = s)
    ∧ (reset_application s).vectorstore = none
    ∧ (reset_application s).chat_history = [] := by
  refine ⟨fun h => ?_, fun h => ?_, rfl, rfl⟩
  · unfold upload_step
    rw [h]
    cases hp : process_document_to_chroma p <;> simp [Except.toOption, hp, h]
  · unfold upload_step
    rw [if_pos h]

/-- Witness for the amended C4: uploading over the live `pdfA` index is a
no-op, and the first upload installed exactly the processing result. -/
theorem index_lifecycle_amended_witness :
    upload_step pdfB (upload_step pdfA initial_state) = upload_step pdfA initial_state
    ∧ (upload_step pdfA initial_state).vectorstore
        = (process_document_to_chroma pdfA).toOption :=
  ⟨(index_lifecycle_amended pdfB (upload_step pdfA initial_state)).2.1 (by decide),
   (index_lifecycle_amended pdfA initial_state).1 rfl⟩

/-- C5: when the PDF fails to load, processing returns the ingestion error
and builds no store, and the upload handler leaves the session state
unchanged: in particular, starting from a session with no index, no
partial, queryable index exists afterwards. -/
theorem ingest_error_no_partial_index (p : Pdf) (s : AppState)
    (hbad : p.parsed = none) :
    process_document_to_chroma p = .error "Failed to parse PDF"
    ∧ upload_step p s = s
    ∧ (s.vectorstore = none → (upload_step p s).vectorstore = none) := by
  have hproc : process_document_to_chroma p = .error "Failed to parse PDF" := by
    unfold process_document_to_chroma
    rw [hbad]
  have hup : upload_step p s = s := by
    unfold upload_step
    split
    · rfl
    · rw [hproc]
  exact ⟨hproc, hup, fun h => by rw [hup, h]⟩

/-- Witness for C5 at the concrete corrupt PDF and the fresh session. -/
theorem ingest_error_no_partial_index_witness :
    process_document_to_chroma pdf_corrupt = .error "Failed to parse PDF"
    ∧ upload_step pdf_corrupt initial_state = initial_state
    ∧ (initial_state.vectorstore = none →
        (upload_step pdf_corrupt initial_state).vectorstore = none) :=
  ingest_error_no_partial_index pdf_corrupt initial_state rfl

/-- C7: reset is a total function (every physical failure is caught in the
source, so the logical reset always completes without raising) and is
idempotent on the logical state: after one reset and after two, the chat
history is empty and no index is queryable, and the second reset changes
neither the history nor the index. -/
theorem reset_idempotent (s : AppState) :
    (reset_application s).chat_history = []
    ∧ (reset_application s).vectorstore = none
    ∧ (reset_application (reset_application s)).chat_history = []
    ∧ (reset_application (reset_application s)).vectorstore = none
    ∧ (reset_application (reset_application s)).chat_history
        = (reset_application s).chat_history
    ∧ (reset_application (reset_application s)).vectorstore
        = (reset_application s).vectorstore :=
  ⟨rfl, rfl, rfl, rfl, rfl, rfl⟩

/-- C8: a question asked while no index is live displays exactly the fixed
upload-first message and makes no backend call: neither retrieval nor
generation is invoked and no answer is produced. -/
theorem ask_before_upload_no_backend (b : Backend) (q : String) (s : AppState)
    (h : s.vectorstore = none) :
    (chat_step b q s).displayed_error = some upload_first_msg
    ∧ (chat_step b q s).backend_calls = []
    ∧ (chat_step b q s).answer = none := by
  unfold chat_step
  simp [h]

/-- Witness for C8 at a concrete question against the fresh session. -/
theorem ask_before_upload_no_backend_witness :
    (chat_step dummy_backend "What is the revenue?" initial_state).displayed_error
      = some upload_first_msg
    ∧ (chat_step dummy_backend "What is the revenue?" initial_state).backend_calls = []
    ∧ (chat_step dummy_backend "What is the revenue?" initial_state).answer = none :=
  ask_before_upload_no_backend dummy_backend "What is the revenue?" initial_state rfl

/-- C10: on the no-index error path the user question is still appended to
the chat history, which grows by exactly one user turn, while the index
stays absent. -/
theorem ask_before_upload_history_grows (b : Backend) (q : String) (s : AppState)
    (h : s.vectorstore = none) :
    (chat_step b q s).state.chat_history = s.chat_history ++ [ChatMsg.human q]
    ∧ (chat_step b q s).state.vectorstore = s.vectorstore := by
  unfold chat_step
  simp [h]

/-- Witness for C10 at a concrete question against the fresh session. -/
theorem ask_before_upload_history_grows_witness :
    (chat_step dummy_backend "Summarize the risks" initial_state).state.chat_history
      = initial_state.chat_history ++ [ChatMsg.human "Summarize the risks"]
    ∧ (chat_step dummy_backend "Summarize the risks" initial_state).state.vectorstore
      = initial_state.vectorstore :=
  ask_before_upload_history_grows dummy_backend "Summarize the risks" initial_state rfl

/-- C9: with the credential absent (unset variable or empty string), the
engine module import and hence application startup fail with the
descriptive error and no session is created; conversely, any successfully
started session implies the credential was present. -/
theorem startup_requires_groq_key :
    (∀ key : Option String, (key = none ∨ key = some "") →
      app_startup key = .error "GROQ_API_KEY not found. Please check your .env file.")
    ∧ (∀ (key : Option String) (s : AppState),
        app_startup key = .ok s → groq_key_ok key = true) := by
  constructor
  · intro key h
    rcases h with h | h <;> subst h <;> rfl
  · intro key s h
    unfold app_startup rag_engine_init at h
    cases hgk : groq_key_ok key with
    | true => rfl
    | false =>
      rw [hgk] at h
      simp at h

/-- Witness for C9 at the concrete absent credential. -/
theorem startup_requires_groq_key_witness :
    app_startup none = .error "GROQ_API_KEY not found. Please check your .env file." :=
  startup_requires_groq_key.1 none (Or.inl rfl)

end RagSpec
